import Mathlib

/-!
# Verification of the CharLCDRGBI2C driver (`src/display.rs`)

Shallow embedding of the character-LCD / RGB / button driver.  The GPIO
expander (MCP23017), the I²C bus and the delay provider are external
collaborators: a call into them is modelled as an emitted event, and —
since the claims under study quantify over executions in which the bus
itself does not fail — the expander primitives always succeed in the
model.  Errors produced locally by the driver (`LcdError::Other` on a
range check) and Rust panics (out-of-bounds indexing into
`LCD_ROW_OFFSETS`) are represented explicitly in the `Outcome` type.

Machine integers: `usize`/`u8` values are carried as `Nat`; the `as u8`
cast is `% 256`; the `u8` addition in the DDRAM-address computation and
the `usize` subtractions in `cursor_position`/`message` wrap modulo the
word size (release-profile semantics of the embedded build), written
with an explicit modulus.  Out-of-bounds slice indexing panics in every
profile and is modelled by `Outcome.panic`.
-/

/-- One observable interaction with the environment: a pin write, a
pin-mode change, a pull-up change, or a delay (`dms` milliseconds /
`dus` microseconds). -/
inductive Ev where
  | dw (pin : Nat) (level : Bool)
  | pm (pin : Nat) (output : Bool)
  | pu (pin : Nat) (enabled : Bool)
  | dms (n : Nat)
  | dus (n : Nat)
deriving DecidableEq, Repr

/-- `enum LcdError { I2c, Mcp, Other }` from `src/display.rs`. -/
inductive LcdError where
  | I2c
  | Mcp
  | Other
deriving DecidableEq, Repr

/-- The driver state: the fields of `struct CharLCDRGBI2C` that carry
data (the `mcp` handle and the `delay` provider are the environment and
appear only through emitted events; the `rgb` field is the constant pin
triple `[A6, A7, B0] = [6, 7, 8]`). -/
structure Lcd where
  columns : Nat
  lines : Nat
  backlight : Bool
  color_value : Nat × Nat × Nat
  display_control : Nat
  display_mode : Nat
  display_function : Nat
  row : Nat
  column : Nat
  column_align : Bool
  direction : Nat
deriving DecidableEq, Repr

/-- Result of running a driver method: a Rust panic, an `Err` return
(carrying the driver state and the events emitted up to that point), or
an `Ok` return. -/
inductive Outcome where
  | panic
  | fail (e : LcdError) (s : Lcd) (tr : List Ev)
  | ok (s : Lcd) (tr : List Ev)
deriving DecidableEq, Repr

/-- Sequential composition: run `o`; on success feed the state to `f`
and concatenate the event traces (Rust `?` propagation). -/
def Outcome.then : Outcome → (Lcd → Outcome) → Outcome
  | .panic, _ => .panic
  | .fail e s tr, _ => .fail e s tr
  | .ok s tr, f =>
    match f s with
    | .panic => .panic
    | .fail e s' tr' => .fail e s' (tr ++ tr')
    | .ok s' tr' => .ok s' (tr ++ tr')

/-- The event trace carried by an outcome (`[]` for a panic). -/
def traceOf (o : Outcome) : List Ev :=
  match o with
  | .panic => []
  | .fail _ _ tr => tr
  | .ok _ tr => tr

/-- A fixed throwaway state, used to make `stateOf` total on panics. -/
def dummyLcd : Lcd :=
  ⟨0, 0, false, (0, 0, 0), 0, 0, 0, 0, 0, false, 0⟩

/-- The driver state carried by an outcome. -/
def stateOf (o : Outcome) : Lcd :=
  match o with
  | .panic => dummyLcd
  | .fail _ s _ => s
  | .ok s _ => s

/-- Did the call return `Ok`? -/
def isOk (o : Outcome) : Bool :=
  match o with
  | .ok _ _ => true
  | _ => false

/-! ## Constants from `src/display.rs` (pin numbers are the
`Mcp23017Pin` enum values: A0..A7 = 0..7, B0..B7 = 8..15). -/

def LCD_RS : Nat := 15
def LCD_E : Nat := 13
def LCD_D4 : Nat := 12
def LCD_D5 : Nat := 11
def LCD_D6 : Nat := 10
def LCD_D7 : Nat := 9
def LCD_RW : Nat := 14
def RGB_RED : Nat := 6
def RGB_GREEN : Nat := 7
def RGB_BLUE : Nat := 8
def LCD_BACKLIGHT : Nat := 5
def BTN_LEFT : Nat := 4
def BTN_UP : Nat := 3
def BTN_DOWN : Nat := 2
def BTN_RIGHT : Nat := 1
def BTN_SELECT : Nat := 0

def LCD_CLEARDISPLAY : Nat := 0x01
def LCD_RETURNHOME : Nat := 0x02
def LCD_ENTRYMODESET : Nat := 0x04
def LCD_DISPLAYCONTROL : Nat := 0x08
def LCD_FUNCTIONSET : Nat := 0x20
def LCD_SETDDRAMADDR : Nat := 0x80
def LCD_ENTRYLEFT : Nat := 0x02
def LCD_ENTRYSHIFTDECREMENT : Nat := 0x00
def LCD_DISPLAYON : Nat := 0x04
def LCD_CURSOROFF : Nat := 0x00
def LCD_BLINKOFF : Nat := 0x00
def LCD_4BITMODE : Nat := 0x00
def LCD_2LINE : Nat := 0x08
def LCD_1LINE : Nat := 0x00
def LCD_5X8DOTS : Nat := 0x00
def LEFT_TO_RIGHT : Nat := 0

/-- `pub const LCD_ROW_OFFSETS: [u8; 4] = [0x00, 0x40, 0x14, 0x54]`
(also the local `row_offsets` table inside `set_cursor`, which has the
same four entries). -/
def LCD_ROW_OFFSETS : List Nat := [0x00, 0x40, 0x14, 0x54]

/-- `usize` word size of the target. -/
def USIZE : Nat := 2 ^ 64

/-- Wrapping `usize` subtraction `a - b` (release-profile semantics). -/
def wsub (a b : Nat) : Nat := (a + (USIZE - b % USIZE)) % USIZE

/-! ## Protocol engine (`pulse_enable`, `write4bits`, `write8`,
`write_command`).  These touch no driver state, so they are plain event
traces. -/

/-- `fn pulse_enable`: E low, 1 µs, E high, 1 µs, E low, 100 µs. -/
def pulse_enable : List Ev :=
  [.dw LCD_E false, .dus 1, .dw LCD_E true, .dus 1, .dw LCD_E false, .dus 100]

/-- `fn write4bits`: set D4..D7 from the low four bits, then pulse. -/
def write4bits (value : Nat) : List Ev :=
  [.dw LCD_D4 (value &&& 0x01 > 0),
   .dw LCD_D5 (value &&& 0x02 > 0),
   .dw LCD_D6 (value &&& 0x04 > 0),
   .dw LCD_D7 (value &&& 0x08 > 0)] ++ pulse_enable

/-- `fn write8`: set RS from `char_mode`, send high nibble then low
nibble. -/
def write8 (value : Nat) (char_mode : Bool) : List Ev :=
  .dw LCD_RS char_mode :: (write4bits (value >>> 4) ++ write4bits (value &&& 0x0F))

/-- `fn write_command`: `write8(value, false)`. -/
def write_command (value : Nat) : List Ev := write8 value false

/-! ## Public operations. -/

/-- `pub fn clear`. -/
def clear (s : Lcd) : Outcome :=
  .ok {s with row := 0, column := 0} (write_command LCD_CLEARDISPLAY ++ [.dms 3])

/-- `pub fn home`. -/
def home (s : Lcd) : Outcome :=
  .ok {s with row := 0, column := 0} (write_command LCD_RETURNHOME ++ [.dms 3])

/-- `pub fn set_color`: each channel pin is driven low iff its value is
`> 1`; the raw triple is stored in `color_value`. -/
def set_color (r g b : Nat) (s : Lcd) : Outcome :=
  .ok {s with color_value := (r, g, b)}
    [.dw RGB_RED (if r > 1 then false else true),
     .dw RGB_GREEN (if g > 1 then false else true),
     .dw RGB_BLUE (if b > 1 then false else true)]

/-- `pub fn set_cursor`: fails with `LcdError::Other` when
`row >= lines` (before any bus write); otherwise indexes the local
four-entry offset table (panic when `row >= 4`) and issues one command
byte `LCD_SETDDRAMADDR | (col as u8 + row_offsets[row])`. -/
def set_cursor (col row : Nat) (s : Lcd) : Outcome :=
  if row ≥ s.lines then .fail .Other s []
  else
    match LCD_ROW_OFFSETS.get? row with
    | none => .panic
    | some off =>
      .ok {s with row := row, column := col}
        (write_command (LCD_SETDDRAMADDR ||| ((col % 256 + off) % 256)))

/-- `pub fn set_backlight`: switches the backlight pin's mode. -/
def set_backlight (onFlag : Bool) (s : Lcd) : Outcome :=
  if onFlag then .ok {s with backlight := true} [.pm LCD_BACKLIGHT true]
  else .ok {s with backlight := false} [.pm LCD_BACKLIGHT false]

/-- `pub fn cursor_position`: clamps `row` to `lines - 1` and `column`
to `columns - 1` (wrapping `usize` subtraction), then indexes
`LCD_ROW_OFFSETS` (panic when the clamped row is `>= 4`) and issues the
DDRAM address command. -/
def cursor_position (column row : Nat) (s : Lcd) : Outcome :=
  let row' := if row ≥ s.lines then wsub s.lines 1 else row
  let column' := if column ≥ s.columns then wsub s.columns 1 else column
  match LCD_ROW_OFFSETS.get? row' with
  | none => .panic
  | some off =>
    .ok {s with row := row', column := column'}
      (write_command (LCD_SETDDRAMADDR ||| ((column' % 256 + off) % 256)))

/-- The line-break character `'\n'` matched by `message`. -/
def newlineChar : Char := Char.ofNat 10

/-- The `for char in message.chars()` loop body of `pub fn message`,
threading the local `line` and `initial_character` variables. -/
def messageAux : List Char → Nat → Nat → Lcd → Outcome
  | [], _, _, s => .ok s []
  | c :: rest, line, ic, s =>
    (if ic = 0 then
      (cursor_position
        (if s.display_mode &&& LCD_ENTRYLEFT > 0 then s.column
         else wsub (wsub s.columns 1) s.column) line s)
     else .ok s []).then (fun s1 =>
      if c = newlineChar then
        (cursor_position
          (if s1.display_mode &&& LCD_ENTRYLEFT > 0 then
            (if s1.column_align then s1.column else 0)
           else
            (if s1.column_align then s1.column else wsub s1.columns 1))
          (line + 1) s1).then
          (fun s2 => messageAux rest (line + 1) (if ic = 0 then ic + 1 else ic) s2)
      else
        (Outcome.ok s1 (write8 (c.toNat % 256) true)).then
          (fun s2 => messageAux rest line (if ic = 0 then ic + 1 else ic) s2))

/-- `pub fn message`: run the character loop starting at the stored
row, then unconditionally reset the tracked cursor to `(0, 0)`. -/
def message (msg : List Char) (s : Lcd) : Outcome :=
  (messageAux msg s.row 0 s).then (fun s1 => .ok {s1 with column := 0, row := 0} [])

/-- `fn setup_pins`: LCD control pins and RGB pins as outputs, button
pins as inputs with pull-up. -/
def setup_pins : List Ev :=
  [.pm LCD_RS true, .pm LCD_E true, .pm LCD_D4 true, .pm LCD_D5 true,
   .pm LCD_D6 true, .pm LCD_D7 true, .pm LCD_RW true,
   .pm RGB_RED true, .pm RGB_GREEN true, .pm RGB_BLUE true,
   .pm BTN_LEFT false, .pu BTN_LEFT true,
   .pm BTN_UP false, .pu BTN_UP true,
   .pm BTN_DOWN false, .pu BTN_DOWN true,
   .pm BTN_RIGHT false, .pu BTN_RIGHT true,
   .pm BTN_SELECT false, .pu BTN_SELECT true]

/-- `fn initialize`: power-on wait, RS/E/RW low, the 0x03/0x03/0x03/0x02
nibble sequence, then display-control, function-set and entry-mode
commands (in that source order), clear, cursor bookkeeping, and all RGB
channels off. -/
def initDisplay (s : Lcd) : Outcome :=
  (Outcome.ok s
    ([.dms 50, .dw LCD_RS false, .dw LCD_E false, .dw LCD_RW false]
      ++ write4bits 0x03 ++ [.dms 5]
      ++ write4bits 0x03 ++ [.dms 5]
      ++ write4bits 0x03 ++ [.dms 1]
      ++ write4bits 0x02 ++ [.dms 1])).then (fun s1 =>
  (Outcome.ok
    {s1 with
      display_control := LCD_DISPLAYON ||| LCD_CURSOROFF ||| LCD_BLINKOFF,
      display_function := LCD_4BITMODE ||| LCD_1LINE ||| LCD_2LINE ||| LCD_5X8DOTS,
      display_mode := LCD_ENTRYLEFT ||| LCD_ENTRYSHIFTDECREMENT}
    []).then (fun s2 =>
  (Outcome.ok s2
    (write_command (LCD_DISPLAYCONTROL ||| s2.display_control)
      ++ write_command (LCD_FUNCTIONSET ||| s2.display_function)
      ++ write_command (LCD_ENTRYMODESET ||| s2.display_mode))).then (fun s3 =>
  (clear s3).then (fun s4 =>
  (Outcome.ok
    {s4 with row := 0, column := 0, column_align := false,
             direction := LEFT_TO_RIGHT} []).then (fun s5 =>
  set_color 0 0 0 s5)))))

/-- `pub fn new`: build the initial record, configure the pins, run the
initialization sequence. -/
def newLcd (columns lines : Nat) : Outcome :=
  (Outcome.ok
    { columns := columns, lines := lines, backlight := true,
      color_value := (0, 0, 0), display_control := 0, display_mode := 0,
      display_function := 0, row := 0, column := 0, column_align := false,
      direction := 0 }
    setup_pins).then initDisplay

/-! ## A model of what the LCD controller observes.

The HD44780 in 4-bit mode latches the four data lines together with the
register-select line on each rising edge of the enable line.  `latched`
replays an event trace against that receiver model and returns the
sequence of latched `(rs, nibble)` pairs — i.e. exactly what the device
has received. -/

/-- The line levels the controller sees (all low at power-up). -/
structure Pins where
  rs : Bool
  d4 : Bool
  d5 : Bool
  d6 : Bool
  d7 : Bool
  e : Bool
deriving DecidableEq, Repr

def pins0 : Pins := ⟨false, false, false, false, false, false⟩

/-- Apply one pin write to the observed line levels. -/
def pinsSet (p : Pins) (pin : Nat) (level : Bool) : Pins :=
  if pin = LCD_RS then {p with rs := level}
  else if pin = LCD_D4 then {p with d4 := level}
  else if pin = LCD_D5 then {p with d5 := level}
  else if pin = LCD_D6 then {p with d6 := level}
  else if pin = LCD_D7 then {p with d7 := level}
  else if pin = LCD_E then {p with e := level}
  else p

/-- The nibble currently presented on D4..D7. -/
def nibbleVal (p : Pins) : Nat :=
  (cond p.d4 1 0) + (cond p.d5 2 0) + (cond p.d6 4 0) + (cond p.d7 8 0)

/-- Replay a trace; record `(rs, nibble)` at every rising enable edge. -/
def latched : List Ev → Pins → List (Bool × Nat)
  | [], _ => []
  | .dw pin level :: rest, p =>
    let p' := pinsSet p pin level
    if pin = LCD_E ∧ level = true ∧ p.e = false then
      (p.rs, nibbleVal p') :: latched rest p'
    else latched rest p'
  | _ :: rest, p => latched rest p

/-- The two `(rs = false, nibble)` pairs by which a command byte `b`
reaches the device, high nibble first. -/
def cmdNib (b : Nat) : List (Bool × Nat) := [(false, b / 16), (false, b % 16)]

/-! ## Further spec-side definitions. -/

/-- The enable pulse as the spec describes it: drive low, wait 1,
drive high, wait 1, drive low, wait 100. -/
def specPulse : List Ev :=
  [.dw LCD_E false, .dus 1, .dw LCD_E true, .dus 1, .dw LCD_E false, .dus 100]

/-- Restriction of a trace to the enable line and the waits, for
stating the pulse pattern. -/
def enAndWaits (tr : List Ev) : List Ev :=
  tr.filter (fun e =>
    match e with
    | .dw p _ => p == LCD_E
    | .dus _ => true
    | .dms _ => true
    | _ => false)

/-- The driver state right after `new(i2c, delay, 16, 2)`. -/
def lcd16x2 : Lcd := stateOf (newLcd 16 2)

/-- A 1-line, 300-column geometry (the constructor accepts any
`usize` geometry). -/
def cexC3lcd : Lcd := {dummyLcd with lines := 1, columns := 300}

/-- A 5-line geometry. -/
def cexC5lcd : Lcd := {dummyLcd with lines := 5, columns := 16}

/-- A 6-line geometry. -/
def linesSixLcd : Lcd := {dummyLcd with lines := 6, columns := 16}

/-- Driver states reachable from a successful construction with
positive geometry, through completed public operations; `set_cursor`
calls are restricted to in-range columns (the amendment of claim C2:
`set_cursor` itself never validates its column argument). -/
inductive Reached : Lcd → Prop where
  | boot (cols lines : Nat) (s : Lcd) (tr : List Ev) :
      1 ≤ lines → 1 ≤ cols → newLcd cols lines = .ok s tr → Reached s
  | opClear (s s' : Lcd) (tr : List Ev) :
      Reached s → clear s = .ok s' tr → Reached s'
  | opHome (s s' : Lcd) (tr : List Ev) :
      Reached s → home s = .ok s' tr → Reached s'
  | opSetColor (s s' : Lcd) (r g b : Nat) (tr : List Ev) :
      Reached s → set_color r g b s = .ok s' tr → Reached s'
  | opSetBacklight (s s' : Lcd) (onFlag : Bool) (tr : List Ev) :
      Reached s → set_backlight onFlag s = .ok s' tr → Reached s'
  | opSetCursor (s s' : Lcd) (col row : Nat) (tr : List Ev) :
      Reached s → col < s.columns → set_cursor col row s = .ok s' tr → Reached s'
  | opSetCursorErr (s s' : Lcd) (col row : Nat) (e : LcdError) (tr : List Ev) :
      Reached s → set_cursor col row s = .fail e s' tr → Reached s'
  | opCursorPos (s s' : Lcd) (col row : Nat) (tr : List Ev) :
      Reached s → cursor_position col row s = .ok s' tr → Reached s'
  | opMessage (s s' : Lcd) (m : List Char) (tr : List Ev) :
      Reached s → message m s = .ok s' tr → Reached s'

/-- The cursor invariant together with the geometry facts needed to
propagate it. -/
def cursorInv (s : Lcd) : Prop :=
  s.row < s.lines ∧ s.column < s.columns ∧ 1 ≤ s.lines ∧ 1 ≤ s.columns

/-! ## Helper lemmas. -/

theorem then_eq_ok {o : Outcome} {f : Lcd → Outcome} {s' : Lcd} {tr : List Ev}
    (h : o.then f = .ok s' tr) :
    ∃ s1 tr1 tr2, o = .ok s1 tr1 ∧ f s1 = .ok s' tr2 ∧ tr = tr1 ++ tr2 := by
  cases o with
  | panic => simp [Outcome.then] at h
  | fail e s t => simp [Outcome.then] at h
  | ok s1 tr1 =>
    simp only [Outcome.then] at h
    cases hf : f s1 with
    | panic => simp only [hf] at h; exact Outcome.noConfusion h
    | fail e s t => simp only [hf] at h; exact Outcome.noConfusion h
    | ok s2 tr2 =>
      simp only [hf, Outcome.ok.injEq] at h
      obtain ⟨h1, h2⟩ := h
      subst h1
      subst h2
      exact ⟨s1, tr1, tr2, rfl, hf, rfl⟩

theorem ok_nil_then (s : Lcd) (f : Lcd → Outcome) :
    (Outcome.ok s []).then f = f s := by
  simp only [Outcome.then]
  cases hf : f s <;> simp [hf]

theorem offsets_get?_lt {r : Nat} (h : r < 4) :
    LCD_ROW_OFFSETS.get? r = some (LCD_ROW_OFFSETS.getD r 0) := by
  interval_cases r <;> rfl

theorem offsets_get?_ge {r : Nat} (h : 4 ≤ r) : LCD_ROW_OFFSETS.get? r = none := by
  obtain ⟨n, rfl⟩ : ∃ n, r = n + 4 := ⟨r - 4, by omega⟩
  rfl

theorem usize_val : USIZE = 18446744073709551616 := by norm_num [USIZE]

theorem wsub_one {n : Nat} (h1 : 1 ≤ n) (h2 : n ≤ USIZE) : wsub n 1 = n - 1 := by
  rw [usize_val] at h2
  simp only [wsub, usize_val]
  omega

theorem wsub_one_lt {n : Nat} (h1 : 1 ≤ n) : wsub n 1 < n := by
  simp only [wsub, usize_val]
  omega

theorem set_cursor_eq_ok {col row : Nat} {s s' : Lcd} {tr : List Ev}
    (h : set_cursor col row s = .ok s' tr) :
    row < s.lines ∧ row < 4 ∧ s' = {s with row := row, column := col} := by
  unfold set_cursor at h
  by_cases hge : row ≥ s.lines
  · rw [if_pos hge] at h
    exact Outcome.noConfusion h
  · rw [if_neg hge] at h
    cases hg : LCD_ROW_OFFSETS.get? row with
    | none => rw [hg] at h; exact Outcome.noConfusion h
    | some off =>
      rw [hg] at h
      have hr4 : row < 4 := by
        by_contra hc
        rw [offsets_get?_ge (by omega)] at hg
        exact Option.noConfusion hg
      injection h with h1 h2
      exact ⟨by omega, hr4, h1.symm⟩

theorem set_cursor_eq_fail {col row : Nat} {s : Lcd} {e : LcdError} {s' : Lcd}
    {tr : List Ev} (h : set_cursor col row s = .fail e s' tr) : s' = s := by
  unfold set_cursor at h
  by_cases hge : row ≥ s.lines
  · rw [if_pos hge] at h
    injection h with h1 h2 h3
    exact h2.symm
  · rw [if_neg hge] at h
    cases hg : LCD_ROW_OFFSETS.get? row with
    | none => rw [hg] at h; exact Outcome.noConfusion h
    | some off => rw [hg] at h; exact Outcome.noConfusion h

theorem cursor_position_eq_ok {col row : Nat} {s s' : Lcd} {tr : List Ev}
    (h : cursor_position col row s = .ok s' tr) :
    (if row ≥ s.lines then wsub s.lines 1 else row) < 4 ∧
    s' = {s with row := (if row ≥ s.lines then wsub s.lines 1 else row),
                 column := (if col ≥ s.columns then wsub s.columns 1 else col)} := by
  simp only [cursor_position] at h
  cases hg : LCD_ROW_OFFSETS.get? (if row ≥ s.lines then wsub s.lines 1 else row) with
  | none => rw [hg] at h; exact Outcome.noConfusion h
  | some off =>
    rw [hg] at h
    have hr4 : (if row ≥ s.lines then wsub s.lines 1 else row) < 4 := by
      by_contra hc
      rw [offsets_get?_ge (by omega)] at hg
      exact Option.noConfusion hg
    injection h with h1 h2
    exact ⟨hr4, h1.symm⟩

theorem set_color_eq_ok {r g b : Nat} {s s' : Lcd} {tr : List Ev}
    (h : set_color r g b s = .ok s' tr) : s' = {s with color_value := (r, g, b)} := by
  unfold set_color at h
  injection h with h1 h2
  exact h1.symm

theorem set_backlight_eq_ok {onFlag : Bool} {s s' : Lcd} {tr : List Ev}
    (h : set_backlight onFlag s = .ok s' tr) : s' = {s with backlight := onFlag} := by
  cases onFlag with
  | false =>
    have h' : Outcome.ok {s with backlight := false} [.pm LCD_BACKLIGHT false] =
        .ok s' tr := h
    injection h' with h1 h2
    exact h1.symm
  | true =>
    have h' : Outcome.ok {s with backlight := true} [.pm LCD_BACKLIGHT true] =
        .ok s' tr := h
    injection h' with h1 h2
    exact h1.symm

theorem messageAux_geo (l : List Char) :
    ∀ (line ic : Nat) (s s' : Lcd) (tr : List Ev),
      messageAux l line ic s = .ok s' tr →
      s'.columns = s.columns ∧ s'.lines = s.lines := by
  induction l with
  | nil =>
    intro line ic s s' tr h
    have h' : Outcome.ok s [] = .ok s' tr := h
    injection h' with h1 h2
    rw [← h1]
    exact ⟨rfl, rfl⟩
  | cons c rest ih =>
    intro line ic s s' tr h
    simp only [messageAux] at h
    obtain ⟨s1, tr1, tr2, h1, h2, -⟩ := then_eq_ok h
    have g1 : s1.columns = s.columns ∧ s1.lines = s.lines := by
      by_cases hic : ic = 0
      · rw [if_pos hic] at h1
        obtain ⟨-, hs⟩ := cursor_position_eq_ok h1
        rw [hs]
        exact ⟨rfl, rfl⟩
      · rw [if_neg hic] at h1
        injection h1 with ha hb
        rw [← ha]
        exact ⟨rfl, rfl⟩
    by_cases hc : c = newlineChar
    · rw [if_pos hc] at h2
      obtain ⟨s2, t1, t2, h2a, h2b, -⟩ := then_eq_ok h2
      obtain ⟨-, hs2⟩ := cursor_position_eq_ok h2a
      obtain ⟨ga, gb⟩ := ih _ _ _ _ _ h2b
      rw [ga, gb, hs2]
      exact g1
    · rw [if_neg hc] at h2
      obtain ⟨s2, t1, t2, h2a, h2b, -⟩ := then_eq_ok h2
      injection h2a with ha hb
      obtain ⟨ga, gb⟩ := ih _ _ _ _ _ h2b
      rw [ga, gb, ← ha]
      exact g1

theorem message_eq_ok {m : List Char} {s s' : Lcd} {tr : List Ev}
    (h : message m s = .ok s' tr) :
    s'.row = 0 ∧ s'.column = 0 ∧ s'.columns = s.columns ∧ s'.lines = s.lines := by
  simp only [message] at h
  obtain ⟨s1, tr1, tr2, h1, h2, -⟩ := then_eq_ok h
  injection h2 with h2a h2b
  obtain ⟨ga, gb⟩ := messageAux_geo m _ _ _ _ _ h1
  rw [← h2a]
  exact ⟨rfl, rfl, ga, gb⟩

theorem reached_inv {s : Lcd} (h : Reached s) : cursorInv s := by
  induction h with
  | boot cols lines s0 tr h1 h2 h3 =>
    have h' : Outcome.ok (stateOf (newLcd cols lines)) (traceOf (newLcd cols lines)) =
        .ok s0 tr := h3
    injection h' with ha hb
    rw [← ha]
    exact ⟨h1, h2, h1, h2⟩
  | opClear s0 s' tr hr hc ih =>
    have h' : Outcome.ok {s0 with row := 0, column := 0}
        (write_command LCD_CLEARDISPLAY ++ [Ev.dms 3]) = .ok s' tr := hc
    injection h' with ha hb
    rw [← ha]
    exact ⟨ih.2.2.1, ih.2.2.2, ih.2.2.1, ih.2.2.2⟩
  | opHome s0 s' tr hr hc ih =>
    have h' : Outcome.ok {s0 with row := 0, column := 0}
        (write_command LCD_RETURNHOME ++ [Ev.dms 3]) = .ok s' tr := hc
    injection h' with ha hb
    rw [← ha]
    exact ⟨ih.2.2.1, ih.2.2.2, ih.2.2.1, ih.2.2.2⟩
  | opSetColor s0 s' r g b tr hr hc ih =>
    rw [set_color_eq_ok hc]
    exact ih
  | opSetBacklight s0 s' onFlag tr hr hc ih =>
    rw [set_backlight_eq_ok hc]
    exact ih
  | opSetCursor s0 s' col row tr hr hcol hc ih =>
    obtain ⟨hrl, hr4, hs⟩ := set_cursor_eq_ok hc
    rw [hs]
    exact ⟨hrl, hcol, ih.2.2.1, ih.2.2.2⟩
  | opSetCursorErr s0 s' col row e tr hr hc ih =>
    rw [set_cursor_eq_fail hc]
    exact ih
  | opCursorPos s0 s' col row tr hr hc ih =>
    obtain ⟨hr4, hs⟩ := cursor_position_eq_ok hc
    rw [hs]
    refine ⟨show (if row ≥ s0.lines then wsub s0.lines 1 else row) < s0.lines from ?_,
            show (if col ≥ s0.columns then wsub s0.columns 1 else col) < s0.columns from ?_,
            ih.2.2.1, ih.2.2.2⟩
    · by_cases hge : row ≥ s0.lines
      · rw [if_pos hge]
        exact wsub_one_lt ih.2.2.1
      · rw [if_neg hge]
        omega
    · by_cases hge : col ≥ s0.columns
      · rw [if_pos hge]
        exact wsub_one_lt ih.2.2.2
      · rw [if_neg hge]
        omega
  | opMessage s0 s' m tr hr hc ih =>
    obtain ⟨h0, h1, h2, h3⟩ := message_eq_ok hc
    exact ⟨by rw [h0, h3]; exact ih.2.2.1, by rw [h1, h2]; exact ih.2.2.2,
           by rw [h3]; exact ih.2.2.1, by rw [h2]; exact ih.2.2.2⟩

/-! ## Claim theorems. -/

/-- C1 (amended): after a successful construction the device has
received, in this order, the three 0x03 nibbles and the 0x02 nibble,
then the display-control command, then the function-set command, then
the entry-mode command, then the clear-display command (the source
writes display-control before function-set), the trace ends with the
three all-channels-off colour writes, and the stored row and column are
both 0. -/
theorem spec_c1_boot_sequence (cols lines : Nat) :
    isOk (newLcd cols lines) = true ∧
    latched (traceOf (newLcd cols lines)) pins0 =
      [(false, 3), (false, 3), (false, 3), (false, 2)]
        ++ cmdNib (LCD_DISPLAYCONTROL ||| (LCD_DISPLAYON ||| LCD_CURSOROFF ||| LCD_BLINKOFF))
        ++ cmdNib (LCD_FUNCTIONSET |||
              (LCD_4BITMODE ||| LCD_1LINE ||| LCD_2LINE ||| LCD_5X8DOTS))
        ++ cmdNib (LCD_ENTRYMODESET ||| (LCD_ENTRYLEFT ||| LCD_ENTRYSHIFTDECREMENT))
        ++ cmdNib LCD_CLEARDISPLAY ∧
    (traceOf (newLcd cols lines)).reverse.take 3 =
      [.dw RGB_BLUE true, .dw RGB_GREEN true, .dw RGB_RED true] ∧
    (stateOf (newLcd cols lines)).row = 0 ∧
    (stateOf (newLcd cols lines)).column = 0 := by
  refine ⟨rfl, ?_, ?_, rfl, rfl⟩
  · rw [show traceOf (newLcd cols lines) = traceOf (newLcd 0 0) from rfl]
    decide
  · rw [show traceOf (newLcd cols lines) = traceOf (newLcd 0 0) from rfl]
    decide

/-- C1 fails as stated: the claim puts the function-set command before
the display-control command, but on a 16×2 construction the device
receives the display-control byte (0x0C) first and the function-set
byte (0x28) second. -/
theorem spec_c1_boot_sequence_cex :
    ¬ (latched (traceOf (newLcd 16 2)) pins0 =
      [(false, 3), (false, 3), (false, 3), (false, 2)]
        ++ cmdNib (LCD_FUNCTIONSET |||
              (LCD_4BITMODE ||| LCD_1LINE ||| LCD_2LINE ||| LCD_5X8DOTS))
        ++ cmdNib (LCD_DISPLAYCONTROL ||| (LCD_DISPLAYON ||| LCD_CURSOROFF ||| LCD_BLINKOFF))
        ++ cmdNib (LCD_ENTRYMODESET ||| (LCD_ENTRYLEFT ||| LCD_ENTRYSHIFTDECREMENT))
        ++ cmdNib LCD_CLEARDISPLAY) := by
  decide

/-- C2 (amended): for every driver state reachable from a construction
with positive geometry through completed public operations in which
every `set_cursor` call supplied an in-range column, the stored cursor
satisfies `row < lines` and `column < columns`.  (Unrestricted
`set_cursor` breaks the invariant because it never checks its column
argument — see the counterexample.) -/
theorem spec_c2_cursor_invariant {s : Lcd} (h : Reached s) :
    s.row < s.lines ∧ s.column < s.columns :=
  ⟨(reached_inv h).1, (reached_inv h).2.1⟩

/-- C2 witness: the state after `new(_, _, 16, 2)` is reachable and
satisfies the invariant. -/
theorem spec_c2_cursor_invariant_wit :
    Reached lcd16x2 ∧ (lcd16x2.row < lcd16x2.lines ∧ lcd16x2.column < lcd16x2.columns) :=
  have hr : Reached lcd16x2 :=
    Reached.boot 16 2 lcd16x2 (traceOf (newLcd 16 2)) (by decide) (by decide) rfl
  ⟨hr, spec_c2_cursor_invariant hr⟩

/-- C2 fails as stated: from the freshly constructed 16×2 driver,
`set_cursor(16, 0)` is a public operation that completes successfully
(only the row is range-checked), yet it stores `column = 16`, violating
`column < columns = 16`. -/
theorem spec_c2_cursor_invariant_cex :
    isOk (newLcd 16 2) = true ∧
    set_cursor 16 0 lcd16x2 =
      .ok {lcd16x2 with row := 0, column := 16} (write_command 0x90) ∧
    ¬ (({lcd16x2 with row := 0, column := 16} : Lcd).column <
        ({lcd16x2 with row := 0, column := 16} : Lcd).columns) := by
  refine ⟨rfl, by decide, by decide⟩

/-- C3 (amended): for in-range arguments, a successful `set_cursor`
issues exactly one command byte, equal to
`0x80 ||| ((col + row_offset[row]) % 256)` — the column enters the
address as a wrapped `u8`, which only matters for `col ≥ 256 - offset` —
and afterwards the stored row and column equal the arguments. -/
theorem spec_c3_set_cursor_cmd {s : Lcd} {col row : Nat} {s' : Lcd} {tr : List Ev}
    (hrow : row < s.lines) (_hcol : col < s.columns)
    (h : set_cursor col row s = .ok s' tr) :
    tr = write_command (LCD_SETDDRAMADDR ||| ((col % 256 + LCD_ROW_OFFSETS.getD row 0) % 256)) ∧
    s'.row = row ∧ s'.column = col := by
  unfold set_cursor at h
  rw [if_neg (by omega)] at h
  cases hg : LCD_ROW_OFFSETS.get? row with
  | none => rw [hg] at h; exact Outcome.noConfusion h
  | some off =>
    rw [hg] at h
    have hr4 : row < 4 := by
      by_contra hge
      rw [offsets_get?_ge (by omega)] at hg
      exact Option.noConfusion hg
    have hoff : off = LCD_ROW_OFFSETS.getD row 0 := by
      rw [offsets_get?_lt hr4] at hg
      injection hg with hgg
      exact hgg.symm
    injection h with h1 h2
    refine ⟨?_, by rw [← h1], by rw [← h1]⟩
    rw [← h2, hoff]

/-- C3 witness: `set_cursor(5, 1)` on the 16×2 driver issues the single
command byte `0x80 | (5 + 0x40) = 0xC5` and stores `(row, column) = (1, 5)`. -/
theorem spec_c3_set_cursor_cmd_wit :
    (1 < lcd16x2.lines ∧ 5 < lcd16x2.columns ∧
      set_cursor 5 1 lcd16x2 = .ok {lcd16x2 with row := 1, column := 5} (write_command 0xC5)) ∧
    (write_command 0xC5 =
        write_command (LCD_SETDDRAMADDR ||| ((5 % 256 + LCD_ROW_OFFSETS.getD 1 0) % 256)) ∧
      ({lcd16x2 with row := 1, column := 5} : Lcd).row = 1 ∧
      ({lcd16x2 with row := 1, column := 5} : Lcd).column = 5) :=
  ⟨⟨by decide, by decide, by decide⟩,
   @spec_c3_set_cursor_cmd lcd16x2 5 1 {lcd16x2 with row := 1, column := 5}
     (write_command 0xC5) (by decide) (by decide) (by decide)⟩

/-- C3 fails as stated: on a 1×300 geometry, `set_cursor(280, 0)`
succeeds and the device receives the single command byte
`0x98 = 0x80 | (280 as u8)`, not the claimed
`0x80 | (280 + row_offset[0]) = 408` (not even a byte): the `col as u8`
cast wraps. -/
theorem spec_c3_set_cursor_cmd_cex :
    0 < cexC3lcd.lines ∧ 280 < cexC3lcd.columns ∧
    isOk (set_cursor 280 0 cexC3lcd) = true ∧
    latched (traceOf (set_cursor 280 0 cexC3lcd)) pins0 = cmdNib 0x98 ∧
    cmdNib 0x98 ≠ cmdNib (LCD_SETDDRAMADDR ||| (280 + LCD_ROW_OFFSETS.getD 0 0)) := by
  refine ⟨by decide, by decide, by decide, by decide, by decide⟩

/-- C4 (confirmed): `set_cursor` with `row ≥ lines` returns the local
range-error kind `LcdError::Other` — distinct from the bus kinds `I2c`
and `Mcp` — with the state unchanged (no clamping) and an empty event
trace (zero bus writes). -/
theorem spec_c4_set_cursor_range_error (s : Lcd) (col row : Nat) (h : row ≥ s.lines) :
    set_cursor col row s = .fail .Other s [] ∧
    (LcdError.Other ≠ LcdError.I2c ∧ LcdError.Other ≠ LcdError.Mcp) := by
  refine ⟨?_, by decide, by decide⟩
  unfold set_cursor
  rw [if_pos h]

/-- C4 witness: `set_cursor(7, 5)` on the 16×2 driver. -/
theorem spec_c4_set_cursor_range_error_wit :
    5 ≥ lcd16x2.lines ∧
    (set_cursor 7 5 lcd16x2 = .fail .Other lcd16x2 [] ∧
      (LcdError.Other ≠ LcdError.I2c ∧ LcdError.Other ≠ LcdError.Mcp)) :=
  ⟨by decide, spec_c4_set_cursor_range_error lcd16x2 7 5 (by decide)⟩

/-- C5 (amended): for geometries with `1 ≤ lines ≤ 4` and
`1 ≤ columns ≤ 2^64`, `cursor_position` never fails: out-of-range
arguments are clamped to `lines - 1` / `columns - 1`, the DDRAM address
command `0x80 ||| ((clamped_column % 256 + row_offset[clamped_row]) % 256)`
is issued (the column enters as a wrapped `u8`), and the clamped values
are stored as the new cursor.  (For `lines = 0` or `lines > 4` the call
can instead panic on the offset table — see the counterexample.) -/
theorem spec_c5_cursor_position_clamps (s : Lcd) (col row : Nat)
    (h1 : 1 ≤ s.lines) (h2 : s.lines ≤ 4) (h3 : 1 ≤ s.columns) (h4 : s.columns ≤ USIZE) :
    cursor_position col row s =
      .ok {s with row := (if row ≥ s.lines then s.lines - 1 else row),
                  column := (if col ≥ s.columns then s.columns - 1 else col)}
        (write_command (LCD_SETDDRAMADDR |||
          (((if col ≥ s.columns then s.columns - 1 else col) % 256 +
            LCD_ROW_OFFSETS.getD (if row ≥ s.lines then s.lines - 1 else row) 0) % 256))) := by
  have hlU : s.lines ≤ USIZE := le_trans h2 (by rw [usize_val]; omega)
  have hrow : (if row ≥ s.lines then wsub s.lines 1 else row) =
      (if row ≥ s.lines then s.lines - 1 else row) := by
    by_cases hge : row ≥ s.lines
    · rw [if_pos hge, if_pos hge, wsub_one h1 hlU]
    · rw [if_neg hge, if_neg hge]
  have hcol : (if col ≥ s.columns then wsub s.columns 1 else col) =
      (if col ≥ s.columns then s.columns - 1 else col) := by
    by_cases hge : col ≥ s.columns
    · rw [if_pos hge, if_pos hge, wsub_one h3 h4]
    · rw [if_neg hge, if_neg hge]
  have hr4 : (if row ≥ s.lines then s.lines - 1 else row) < 4 := by
    by_cases hge : row ≥ s.lines
    · rw [if_pos hge]; omega
    · rw [if_neg hge]; omega
  simp only [cursor_position, hrow, hcol]
  rw [offsets_get?_lt hr4]

/-- C5 witness: `cursor_position(20, 9)` on the 16×2 driver clamps to
row 1, column 15 and issues `0x80 | (15 + 0x40) = 0xCF`. -/
theorem spec_c5_cursor_position_clamps_wit :
    (1 ≤ lcd16x2.lines ∧ lcd16x2.lines ≤ 4 ∧ 1 ≤ lcd16x2.columns ∧ lcd16x2.columns ≤ USIZE) ∧
    cursor_position 20 9 lcd16x2 =
      .ok {lcd16x2 with row := 1, column := 15} (write_command 0xCF) :=
  ⟨⟨by decide, by decide, by decide, by rw [usize_val]; decide⟩,
   spec_c5_cursor_position_clamps lcd16x2 20 9 (by decide) (by decide) (by decide)
     (by rw [usize_val]; decide)⟩

/-- C5 fails as stated: on a 5-line geometry, `cursor_position(0, 7)`
has an out-of-range row, yet instead of clamping-and-issuing it panics:
the clamped row `lines - 1 = 4` indexes past the end of the four-entry
`LCD_ROW_OFFSETS` table. -/
theorem spec_c5_cursor_position_clamps_cex :
    7 ≥ cexC5lcd.lines ∧ cursor_position 0 7 cexC5lcd = .panic := by
  refine ⟨by decide, by decide⟩

set_option maxRecDepth 100000 in
/-- C6 (confirmed): for every byte `v`, `write8(v, is_data)` makes the
device latch exactly the nibble sequence `[v >> 4, v & 0x0F]`, each
tagged with the register-select level `is_data` (set before the
transfer), and the enable-line activity of the call is exactly two
pulses of the fixed pattern low / wait 1 / high / wait 1 / low /
wait 100. -/
theorem spec_c6_write8_nibbles (v : Nat) (hv : v < 256) (d : Bool) :
    latched (write8 v d) pins0 = [(d, v >>> 4), (d, v &&& 0x0F)] ∧
    enAndWaits (write8 v d) = specPulse ++ specPulse := by
  cases d <;> (revert v; decide)

/-- C6 witness: `write8(0xA7, true)` latches the data nibbles 10 and 7. -/
theorem spec_c6_write8_nibbles_wit :
    167 < 256 ∧
    (latched (write8 167 true) pins0 = [(true, 167 >>> 4), (true, 167 &&& 0x0F)] ∧
      enAndWaits (write8 167 true) = specPulse ++ specPulse) :=
  ⟨by decide, spec_c6_write8_nibbles 167 (by decide) true⟩

/-- C7 (confirmed): after any successful `message` call, whatever the
input and the starting state, the stored row and column are both 0 —
the final bookkeeping overwrites the true end-of-text position. -/
theorem spec_c7_message_resets_origin (m : List Char) (s s' : Lcd) (tr : List Ev)
    (h : message m s = .ok s' tr) : s'.row = 0 ∧ s'.column = 0 := by
  simp only [message] at h
  obtain ⟨s1, tr1, tr2, h1, h2, -⟩ := then_eq_ok h
  injection h2 with h2a h2b
  rw [← h2a]
  exact ⟨rfl, rfl⟩

/-- C7 witness: the empty message on the 16×2 driver. -/
theorem spec_c7_message_resets_origin_wit :
    message [] lcd16x2 = .ok {lcd16x2 with column := 0, row := 0} [] ∧
    (({lcd16x2 with column := 0, row := 0} : Lcd).row = 0 ∧
      ({lcd16x2 with column := 0, row := 0} : Lcd).column = 0) :=
  ⟨by decide,
   spec_c7_message_resets_origin [] lcd16x2 {lcd16x2 with column := 0, row := 0} []
     (by decide)⟩

/-- C8 (confirmed): past the first character, hitting a line-break
character makes `message` advance the line counter by one and
reposition through `cursor_position` on the new line, at the stored
column when `column_align` is set, else at column 0 in left-to-right
entry mode and at `columns - 1` in right-to-left entry mode. -/
theorem spec_c8_message_linebreak (rest : List Char) (line ic : Nat) (s : Lcd)
    (hic : ic ≠ 0) (hcols : 1 ≤ s.columns) (hU : s.columns ≤ USIZE) :
    messageAux (newlineChar :: rest) line ic s =
      (cursor_position
        (if s.column_align then s.column
         else (if s.display_mode &&& LCD_ENTRYLEFT > 0 then 0 else s.columns - 1))
        (line + 1) s).then
        (fun s2 => messageAux rest (line + 1) ic s2) := by
  have htgt :
      (if s.display_mode &&& LCD_ENTRYLEFT > 0 then
        (if s.column_align then s.column else 0)
       else
        (if s.column_align then s.column else wsub s.columns 1)) =
      (if s.column_align then s.column
       else (if s.display_mode &&& LCD_ENTRYLEFT > 0 then 0 else s.columns - 1)) := by
    by_cases ha : s.column_align <;> by_cases hd : s.display_mode &&& LCD_ENTRYLEFT > 0 <;>
      simp [ha, hd, wsub_one hcols hU]
  simp only [messageAux, if_neg hic, ok_nil_then, if_pos rfl, htgt, if_true]

/-- C8 witness: a lone line-break (at `ic = 1`) on the 16×2 driver. -/
theorem spec_c8_message_linebreak_wit :
    ((1 : Nat) ≠ 0 ∧ 1 ≤ lcd16x2.columns ∧ lcd16x2.columns ≤ USIZE) ∧
    messageAux [newlineChar] 0 1 lcd16x2 =
      (cursor_position
        (if lcd16x2.column_align then lcd16x2.column
         else (if lcd16x2.display_mode &&& LCD_ENTRYLEFT > 0 then 0 else lcd16x2.columns - 1))
        1 lcd16x2).then
        (fun s2 => messageAux [] 1 1 s2) :=
  ⟨⟨by decide, by decide, by rw [usize_val]; decide⟩,
   spec_c8_message_linebreak [] 0 1 lcd16x2 (by decide) (by decide)
     (by rw [usize_val]; decide)⟩

/-- C9 (confirmed): `set_color(r, g, b)` drives each RGB pin low exactly
when that channel's value exceeds 1 (so the pin level is
`decide (v ≤ 1)`: high for 0 and 1, low for 2..255), and stores the
arguments verbatim in `color_value`. -/
theorem spec_c9_set_color_levels (s : Lcd) (r g b : Nat)
    (_hr : r < 256) (_hg : g < 256) (_hb : b < 256) :
    set_color r g b s =
      .ok {s with color_value := (r, g, b)}
        [.dw RGB_RED (decide (r ≤ 1)), .dw RGB_GREEN (decide (g ≤ 1)),
         .dw RGB_BLUE (decide (b ≤ 1))] := by
  have lvl : ∀ n : Nat, (if n > 1 then false else true) = decide (n ≤ 1) := by
    intro n
    by_cases h : n > 1
    · rw [if_pos h]
      symm
      rw [decide_eq_false_iff_not]
      omega
    · rw [if_neg h]
      symm
      rw [decide_eq_true_eq]
      omega
  unfold set_color
  rw [lvl r, lvl g, lvl b]

/-- C9 witness: `set_color(255, 255, 255)` drives all three pins low
(on) and stores `(255, 255, 255)`. -/
theorem spec_c9_set_color_levels_wit :
    (255 < 256 ∧ 255 < 256 ∧ 255 < 256) ∧
    set_color 255 255 255 lcd16x2 =
      .ok {lcd16x2 with color_value := (255, 255, 255)}
        [.dw RGB_RED false, .dw RGB_GREEN false, .dw RGB_BLUE false] :=
  ⟨⟨by decide, by decide, by decide⟩,
   spec_c9_set_color_levels lcd16x2 255 255 255 (by decide) (by decide) (by decide)⟩

/-- C10 (confirmed): on a driver constructed with more than four lines,
`set_cursor` and `cursor_position` with any row in `[4, lines)` pass
the `row < lines` guard (the only one present) and index past the end
of the four-entry row-offset table — a Rust panic. -/
theorem spec_c10_row_offset_panic (s : Lcd) (col row : Nat)
    (h4 : 4 ≤ row) (hlt : row < s.lines) :
    set_cursor col row s = .panic ∧ cursor_position col row s = .panic := by
  constructor
  · unfold set_cursor
    rw [if_neg (by omega), offsets_get?_ge h4]
  · simp only [cursor_position]
    rw [if_neg (by omega), offsets_get?_ge h4]

/-- C10 witness: row 4 on a 6-line geometry panics in both entry
points. -/
theorem spec_c10_row_offset_panic_wit :
    ((4 : Nat) ≤ 4 ∧ 4 < linesSixLcd.lines) ∧
    (set_cursor 0 4 linesSixLcd = .panic ∧ cursor_position 0 4 linesSixLcd = .panic) :=
  ⟨⟨by decide, by decide⟩,
   spec_c10_row_offset_panic linesSixLcd 0 4 (by decide) (by decide)⟩
